import Mathlib

set_option autoImplicit false

/-!
Shallow embedding of `src/example-runtime/src/main.rs` (wasi-gfx-runtime).

The embedded code is the UI-thread event loop (`MyEventLoop::run`), the
broadcast channels created by `create_event_loop`, the cross-thread
window-creation RPC (`MyMessageSender::create_window`), the helper
`unwrap_unless_inactive`, and the key/pointer/resize event translation.

Positions are `f64` in the source, but the source performs no arithmetic
on them (they are only stored and copied verbatim), so exact rationals
represent the data flow faithfully.

The broadcast channel is the `async_broadcast` crate's channel as used by
the source: `try_broadcast` checks Closed, then Inactive (zero active
receivers), then Full (buffer length equals capacity; overflow mode is
off, the default), and otherwise appends the message.  Receiving pops the
oldest queued message.  A panic in the embedded Rust code is modelled by
the `panicked` result constructor.
-/

namespace WasiGfx

abbrev F64 := ℚ

abbrev WindowId := Nat

/-- `wasi::webgpu::pointer_events::PointerEvent`. -/
structure PointerEvent where
  x : F64
  y : F64
  deriving DecidableEq

/-- `wasi::webgpu::key_events::KeyEvent`. -/
structure KeyEvent where
  code : String
  key : String
  alt_key : Bool
  ctrl_key : Bool
  meta_key : Bool
  shift_key : Bool
  deriving DecidableEq

/-- `wasi::webgpu::mini_canvas::ResizeEvent` (fields are `u32`). -/
structure ResizeEvent where
  height : Nat
  width : Nat
  deriving DecidableEq

/-- `async_broadcast::TrySendError`: the failed `try_broadcast` returns the
message that could not be queued. -/
inductive TrySendError (α : Type) where
  | Full (msg : α)
  | Inactive (msg : α)
  | Closed (msg : α)
  deriving DecidableEq

/-- State of one `async_broadcast` channel: bounded queue, count of active
receivers, closed flag.  Overflow mode is off throughout the source. -/
structure Channel (α : Type) where
  capacity : Nat
  queue : List α
  receiverCount : Nat
  closed : Bool
  deriving DecidableEq

/-- `async_broadcast::broadcast(cap)` followed by `Receiver::deactivate()`
on the sole receiver, as done in `create_event_loop`: the channel starts
with zero active receivers. -/
def Channel.new (α : Type) (cap : Nat) : Channel α :=
  { capacity := cap, queue := [], receiverCount := 0, closed := false }

/-- `Sender::try_broadcast`: error order is Closed, Inactive, Full; on
success the message is appended to the queue.  Returns the result together
with the channel state afterwards (unchanged on error). -/
def Channel.try_broadcast {α : Type} (ch : Channel α) (msg : α) :
    Except (TrySendError α) (Option α) × Channel α :=
  if ch.closed then (.error (.Closed msg), ch)
  else if ch.receiverCount = 0 then (.error (.Inactive msg), ch)
  else if ch.queue.length = ch.capacity then (.error (.Full msg), ch)
  else (.ok none, { ch with queue := ch.queue ++ [msg] })

/-- A subscriber's receive: pops the oldest queued message, if any. -/
def Channel.recv {α : Type} (ch : Channel α) : Option α × Channel α :=
  match ch.queue with
  | [] => (none, ch)
  | m :: rest => (some m, { ch with queue := rest })

/-- `unwrap_unless_inactive` (main.rs lines 336-343): returns normally
(`true`) on `Ok` or on `TrySendError::Inactive`; otherwise `res.unwrap()`
panics (`false`). -/
def unwrap_unless_inactive {α : Type} (res : Except (TrySendError α) (Option α)) : Bool :=
  match res with
  | .ok _ => true
  | .error (.Inactive _) => true
  | .error (.Full _) => false
  | .error (.Closed _) => false

/-- The seven broadcast senders of `MainThreadMessageSenders`. -/
structure MainThreadMessageSenders where
  pointer_up_event : Channel (WindowId × PointerEvent)
  pointer_down_event : Channel (WindowId × PointerEvent)
  pointer_move_event : Channel (WindowId × PointerEvent)
  key_up_event : Channel (WindowId × KeyEvent)
  key_down_event : Channel (WindowId × KeyEvent)
  canvas_resize_event : Channel (WindowId × ResizeEvent)
  frame : Channel Unit
  deriving DecidableEq

/-- The channels as `create_event_loop` builds them (main.rs lines
167-203): capacity 10 for every event channel, capacity 1 for the frame
channel, each receiver immediately deactivated. -/
def create_event_loop_senders : MainThreadMessageSenders :=
  { pointer_up_event := Channel.new _ 10
    pointer_down_event := Channel.new _ 10
    pointer_move_event := Channel.new _ 10
    key_up_event := Channel.new _ 10
    key_down_event := Channel.new _ 10
    canvas_resize_event := Channel.new _ 10
    frame := Channel.new _ 1 }

/-- `winit::window::Window`, reduced to its identity (`Window::id()`). -/
structure Window where
  id : WindowId
  deriving DecidableEq

/-- State of a `oneshot` channel's sender half, seen from the UI thread:
whether the receiver half is still alive, and the value written so far. -/
structure OneshotSender (α : Type) where
  receiverAlive : Bool
  value : Option α
  deriving DecidableEq

/-- `oneshot::Sender::send`: succeeds iff the receiver is still alive;
on success the value sits in the slot for the receiver to take. -/
def OneshotSender.send {α : Type} (s : OneshotSender α) (a : α) :
    Except Unit (OneshotSender α) :=
  if s.receiverAlive then .ok { s with value := some a } else .error ()

/-- `receiver.await`: the awaiting task resumes with the value once one
has been written into the slot; `none` means it is still suspended. -/
def oneshotAwait {α : Type} (s : OneshotSender α) : Option α := s.value

/-- `winit::event::ModifiersState` as queried by the source
(`shift()`, `ctrl()`, `alt()`, `logo()`). -/
structure ModifiersState where
  shift : Bool
  ctrl : Bool
  alt : Bool
  logo : Bool
  deriving DecidableEq

inductive ElementState where
  | Pressed
  | Released
  deriving DecidableEq

/-- `winit::event::KeyboardInput`.  `virtual_keycode` is modelled as the
already Debug-formatted key name (what `format!` produces), when present. -/
structure KeyboardInput where
  scancode : Nat
  state : ElementState
  virtual_keycode : Option String
  modifiers : ModifiersState
  deriving DecidableEq

structure PhysicalPosition where
  x : F64
  y : F64
  deriving DecidableEq

structure PhysicalSize where
  width : Nat
  height : Nat
  deriving DecidableEq

/-- The `winit::event::WindowEvent` variants the source matches on;
`other` stands for every variant handled by the catch-all arm. -/
inductive WinWindowEvent where
  | cursorMoved (position : PhysicalPosition)
  | keyboardInput (input : KeyboardInput)
  | mouseInput (state : ElementState)
  | resized (new_size : PhysicalSize)
  | other
  deriving DecidableEq

/-- `MainThreadAction` (main.rs lines 124-127). -/
inductive MainThreadAction where
  | CreateWindow (response_channel : OneshotSender Window)
  deriving DecidableEq

/-- The `winit::event::Event` variants the source matches on. -/
inductive WinEvent where
  | userEvent (event : MainThreadAction)
  | windowEvent (window_id : WindowId) (event : WinWindowEvent)
  | other
  deriving DecidableEq

/-- The `KeyEvent` built in the `WindowEvent::KeyboardInput` arm
(main.rs lines 268-278), field for field as the source writes it:
note `alt_key` is assigned `input.modifiers.shift()` in the source. -/
def keyEventOfInput (input : KeyboardInput) : KeyEvent :=
  { code := input.virtual_keycode.getD ""
    key := toString input.scancode
    alt_key := input.modifiers.shift
    ctrl_key := input.modifiers.ctrl
    meta_key := input.modifiers.logo
    shift_key := input.modifiers.shift }

/-- `HashMap::get`, on an association-list model of the map. -/
def mapGet {κ α : Type} [DecidableEq κ] (m : List (κ × α)) (k : κ) : Option α :=
  match m with
  | [] => none
  | (k', v) :: rest => if k' = k then some v else mapGet rest k

/-- Replace or add the binding for `k`. -/
def mapSet {κ α : Type} [DecidableEq κ] (m : List (κ × α)) (k : κ) (v : α) :
    List (κ × α) :=
  match m with
  | [] => [(k, v)]
  | (k', v') :: rest => if k' = k then (k, v) :: rest else (k', v') :: mapSet rest k v

/-- `HashMap::insert`: updates the binding and returns the previous value
at the key, if any. -/
def mapInsert {κ α : Type} [DecidableEq κ] (m : List (κ × α)) (k : κ) (v : α) :
    List (κ × α) × Option α :=
  (mapSet m k v, mapGet m k)

/-- The mutable state of the event-loop closure: the `pointer_pos` map and
the senders captured by `self`. -/
structure LoopState where
  pointer_pos : List (WindowId × (F64 × F64))
  senders : MainThreadMessageSenders
  deriving DecidableEq

/-- Result of one turn of the event-loop closure: the next state, the
lines printed this turn, the reply slot as left by a `CreateWindow` turn
(if this turn handled one) — or a panic. -/
inductive StepResult where
  | next (state : LoopState) (log : List String) (reply : Option (OneshotSender Window))
  | panicked (msg : String)
  deriving DecidableEq

namespace MyEventLoop

/-- One turn of the closure passed to `event_loop.run` (main.rs lines
229-332).  `fresh_window_id` is the identity `winit` gives the window a
`CreateWindow` turn creates; it is unused on every other turn. -/
def run_step (s : LoopState) (fresh_window_id : WindowId) (event : WinEvent) : StepResult :=
  match event with
  | .userEvent (.CreateWindow response_channel) =>
      let window : Window := { id := fresh_window_id }
      let pp := (mapInsert s.pointer_pos window.id (0, 0)).1
      match response_channel.send window with
      | .ok slot => .next { s with pointer_pos := pp } [] (some slot)
      | .error _ => .panicked "called Result::unwrap on an Err value"
  | .windowEvent window_id we =>
      match we with
      | .cursorMoved position =>
          let (pp, old) := mapInsert s.pointer_pos window_id (position.x, position.y)
          match old with
          | none => .panicked "called Option::unwrap on a None value"
          | some _ =>
              let ev : PointerEvent := { x := position.x, y := position.y }
              let (res, ch) := s.senders.pointer_move_event.try_broadcast (window_id, ev)
              let s' : LoopState :=
                { s with pointer_pos := pp
                         senders := { s.senders with pointer_move_event := ch } }
              match res with
              | .ok _ => .next s' [] none
              | .error (.Full _) => .next s' ["skipping a pointer move event"] none
              | .error (.Inactive _) => .next s' [] none
              | .error (.Closed _) => .panicked "Channel closed"
      | .keyboardInput input =>
          let ev := keyEventOfInput input
          match input.state with
          | .Pressed =>
              let (res, ch) := s.senders.key_down_event.try_broadcast (window_id, ev)
              let s' : LoopState := { s with senders := { s.senders with key_down_event := ch } }
              if unwrap_unless_inactive res then .next s' [] none
              else .panicked "called Result::unwrap on an Err value"
          | .Released =>
              let (res, ch) := s.senders.key_up_event.try_broadcast (window_id, ev)
              let s' : LoopState := { s with senders := { s.senders with key_up_event := ch } }
              if unwrap_unless_inactive res then .next s' [] none
              else .panicked "called Result::unwrap on an Err value"
      | .mouseInput st =>
          match mapGet s.pointer_pos window_id with
          | none => .panicked "called Option::unwrap on a None value"
          | some (px, py) =>
              let ev : PointerEvent := { x := px, y := py }
              match st with
              | .Pressed =>
                  let (res, ch) := s.senders.pointer_down_event.try_broadcast (window_id, ev)
                  let s' : LoopState :=
                    { s with senders := { s.senders with pointer_down_event := ch } }
                  if unwrap_unless_inactive res then .next s' [] none
                  else .panicked "called Result::unwrap on an Err value"
              | .Released =>
                  let (res, ch) := s.senders.pointer_up_event.try_broadcast (window_id, ev)
                  let s' : LoopState :=
                    { s with senders := { s.senders with pointer_up_event := ch } }
                  if unwrap_unless_inactive res then .next s' [] none
                  else .panicked "called Result::unwrap on an Err value"
      | .resized new_size =>
          let ev : ResizeEvent := { height := new_size.height, width := new_size.width }
          let (res, ch) := s.senders.canvas_resize_event.try_broadcast (window_id, ev)
          let s' : LoopState :=
            { s with senders := { s.senders with canvas_resize_event := ch } }
          if unwrap_unless_inactive res then .next s' [] none
          else .panicked "called Result::unwrap on an Err value"
      | .other => .next s [] none
  | .other => .next s [] none

end MyEventLoop

/-- Result of one iteration of the frame-tick producer task. -/
inductive FrameTickResult where
  | next (frame : Channel Unit) (log : List String)
  | panicked (msg : String)
  deriving DecidableEq

/-- One iteration of the frame-tick task spawned by `MyEventLoop::run`
(main.rs lines 207-224): `try_broadcast(())`, skip on Full with a
diagnostic, ignore Inactive, panic on Closed. -/
def frame_tick_step (frame : Channel Unit) : FrameTickResult :=
  let (res, ch) := frame.try_broadcast ()
  match res with
  | .ok _ => .next ch []
  | .error (.Full _) => .next ch ["skipping a frame"]
  | .error (.Inactive _) => .next ch []
  | .error (.Closed _) => .panicked "Channel closed"

/-- Outcome of the sending half of `MyMessageSender::create_window`
(main.rs lines 157-164): posting the user event into the native loop. -/
inductive CreateWindowSend where
  | sent (action : MainThreadAction)
  | panicked (msg : String)
  deriving DecidableEq

/-- `self.proxy.send_event(MainThreadAction::CreateWindow(sender)).unwrap()`:
posting succeeds iff the native event loop is still alive; a failed post
is unwrapped, i.e. panics. -/
def MyMessageSender.create_window_send (event_loop_alive : Bool)
    (sender : OneshotSender Window) : CreateWindowSend :=
  if event_loop_alive then .sent (.CreateWindow sender)
  else .panicked "called Result::unwrap on an Err value"

/-- Modelled from the spec: the Capability Table of section 4.1 is realised
by `wasmtime_wasi`'s `ResourceTable` behind the `bindgen!` `with`-bindings
(main.rs lines 56-99) and its code is not under `src/`; these are the
resource kinds that section 3 lists as bound through those bindings. -/
inductive ResourceKind where
  | gpuAdapter
  | gpuDevice
  | gpuQueue
  | gpuCommandEncoder
  | gpuRenderPassEncoder
  | gpuShaderModule
  | gpuRenderPipeline
  | gpuCommandBuffer
  | gpuBuffer
  | gpuPipelineLayout
  | gpuBindGroupLayout
  | gpuSampler
  | gpuTexture
  | gpuBindGroup
  | gpuTextureView
  | surface
  | frameBuffer
  | pointerUpListener
  | pointerDownListener
  | pointerMoveListener
  | keyUpListener
  | keyDownListener
  | resizeListener
  | frameListener
  deriving DecidableEq

/-- Modelled from the spec: a Capability Table entry binds one handle to a
kind tag and one native identifier (section 3 and 4.1). -/
structure CapTable where
  entries : List (Nat × (ResourceKind × Nat))
  next_handle : Nat
  deriving DecidableEq

def CapTable.empty : CapTable := { entries := [], next_handle := 0 }

inductive ResolveError where
  | TypeMismatch
  | NotFound
  deriving DecidableEq

/-- Modelled from the spec: `allocate(kind, native_id) -> Handle`
(section 4.1). -/
def CapTable.allocate (t : CapTable) (kind : ResourceKind) (native_id : Nat) :
    CapTable × Nat :=
  ({ entries := (t.next_handle, (kind, native_id)) :: t.entries
     next_handle := t.next_handle + 1 },
   t.next_handle)

/-- Modelled from the spec: `resolve(handle, expected_kind)` fails with
`TypeMismatch` when the recorded kind differs from `expected_kind`, and
with `NotFound` when the handle is absent (section 4.1). -/
def CapTable.resolve (t : CapTable) (h : Nat) (expected : ResourceKind) :
    Except ResolveError Nat :=
  match mapGet t.entries h with
  | none => .error .NotFound
  | some (k, native_id) =>
      if k = expected then .ok native_id else .error .TypeMismatch

/-- The binding just written by `mapSet` is the one `mapGet` finds. -/
theorem mapGet_mapSet_self {κ α : Type} [DecidableEq κ]
    (m : List (κ × α)) (k : κ) (v : α) : mapGet (mapSet m k v) k = some v := by
  induction m with
  | nil => simp [mapSet, mapGet]
  | cons p rest ih =>
      obtain ⟨k', v'⟩ := p
      by_cases h : k' = k
      · simp [mapSet, mapGet, h]
      · simp [mapSet, mapGet, h, ih]

/-- The loop state right after `create_event_loop`: no window tracked yet,
channels as created (all receivers deactivated). -/
def initLoopState : LoopState :=
  { pointer_pos := [], senders := create_event_loop_senders }

/-- C10: the event-loop handler unwraps the tracked pointer position for
the event's window, so a cursor-move or mouse-button native event for a
window that was never registered through `CreateWindow` panics the
handler instead of being dropped or default-initialised. -/
theorem c10_untracked_window_event_panics :
    MyEventLoop.run_step initLoopState 0
        (.windowEvent 3 (.cursorMoved { x := 1, y := 2 })) =
      .panicked "called Option::unwrap on a None value" ∧
    MyEventLoop.run_step initLoopState 0
        (.windowEvent 3 (.mouseInput .Pressed)) =
      .panicked "called Option::unwrap on a None value" :=
  ⟨rfl, rfl⟩

/-- C8: if posting the `CreateWindow` user event into the native event
loop fails because the loop is gone, `MyMessageSender::create_window`
unwraps the error and panics instead of returning a recoverable error. -/
theorem c8_post_failure_is_fatal (sender : OneshotSender Window) :
    MyMessageSender.create_window_send false sender =
      .panicked "called Result::unwrap on an Err value" :=
  rfl

/-- Keyboard input with only the Alt modifier held. -/
def altOnlyInput : KeyboardInput :=
  { scancode := 30
    state := .Pressed
    virtual_keycode := some "A"
    modifiers := { shift := false, ctrl := false, alt := true, logo := false } }

/-- C5: evaluating the key-event translation at a native event with the
Alt modifier held and Shift released: the source assigns
`alt_key: input.modifiers.shift()`, so the published event reports
`alt_key = false` although the native alt modifier is held. -/
theorem c5_alt_key_copies_shift_modifier :
    altOnlyInput.modifiers.alt = true ∧
    (keyEventOfInput altOnlyInput).alt_key = false ∧
    (keyEventOfInput altOnlyInput).alt_key = altOnlyInput.modifiers.shift :=
  ⟨rfl, rfl, rfl⟩

/-- C2 counterexample: handling a `CreateWindow` request whose reply
receiver was already dropped makes the UI thread panic (the reply send is
unwrapped), not silently discard the reply. -/
theorem c2_counterexample_dropped_reply_crashes :
    MyEventLoop.run_step initLoopState 5
        (.userEvent (.CreateWindow { receiverAlive := false, value := none })) =
      .panicked "called Result::unwrap on an Err value" :=
  rfl

/-- C2 amended: if the one-shot reply channel of a window-creation request
is dropped before the UI thread writes its reply, the UI thread panics on
the reply write (it unwraps the send result), aborting the UI event loop. -/
theorem c2_dropped_reply_panics (s : LoopState) (fid : WindowId)
    (slot : OneshotSender Window) (h : slot.receiverAlive = false) :
    MyEventLoop.run_step s fid (.userEvent (.CreateWindow slot)) =
      .panicked "called Result::unwrap on an Err value" := by
  simp [MyEventLoop.run_step, OneshotSender.send, h]

theorem c2_dropped_reply_panics_witness :
    ({ receiverAlive := false, value := none } : OneshotSender Window).receiverAlive = false ∧
    MyEventLoop.run_step initLoopState 5
        (.userEvent (.CreateWindow { receiverAlive := false, value := none })) =
      .panicked "called Result::unwrap on an Err value" :=
  ⟨rfl, c2_dropped_reply_panics initLoopState 5 { receiverAlive := false, value := none } rfl⟩

/-- C6: the frame-tick channel is created with capacity exactly 1; from an
empty active capacity-1 channel, one publish queues the tick, a second
publish while it is unconsumed is Full (logged "skipping a frame", channel
unchanged), and a single read then yields exactly one tick, leaving the
channel empty. -/
theorem c6_frame_tick_capacity_one (c : Channel Unit)
    (hcap : c.capacity = 1) (hq : c.queue = [])
    (hact : c.receiverCount ≠ 0) (hopen : c.closed = false) :
    create_event_loop_senders.frame.capacity = 1 ∧
    frame_tick_step c = .next { c with queue := [()] } [] ∧
    frame_tick_step { c with queue := [()] } =
      .next { c with queue := [()] } ["skipping a frame"] ∧
    Channel.recv { c with queue := [()] } = (some (), { c with queue := [] }) ∧
    Channel.recv { c with queue := ([] : List Unit) } =
      (none, { c with queue := [] }) := by
  refine ⟨rfl, ?_, ?_, ?_, ?_⟩
  · simp [frame_tick_step, Channel.try_broadcast, hcap, hq, hact, hopen]
  · simp [frame_tick_step, Channel.try_broadcast, hcap, hact, hopen]
  · simp [Channel.recv]
  · simp [Channel.recv]

theorem c6_frame_tick_capacity_one_witness :
    (Channel.mk 1 ([] : List Unit) 1 false).capacity = 1 ∧
    (Channel.mk 1 ([] : List Unit) 1 false).queue = [] ∧
    (Channel.mk 1 ([] : List Unit) 1 false).receiverCount ≠ 0 ∧
    (Channel.mk 1 ([] : List Unit) 1 false).closed = false ∧
    (create_event_loop_senders.frame.capacity = 1 ∧
     frame_tick_step (Channel.mk 1 [] 1 false) =
       .next { Channel.mk 1 ([] : List Unit) 1 false with queue := [()] } [] ∧
     frame_tick_step { Channel.mk 1 ([] : List Unit) 1 false with queue := [()] } =
       .next { Channel.mk 1 ([] : List Unit) 1 false with queue := [()] }
         ["skipping a frame"] ∧
     Channel.recv { Channel.mk 1 ([] : List Unit) 1 false with queue := [()] } =
       (some (), { Channel.mk 1 ([] : List Unit) 1 false with queue := [] }) ∧
     Channel.recv { Channel.mk 1 ([] : List Unit) 1 false with queue := ([] : List Unit) } =
       (none, { Channel.mk 1 ([] : List Unit) 1 false with queue := [] })) :=
  ⟨rfl, rfl, by decide, rfl,
   c6_frame_tick_capacity_one (Channel.mk 1 [] 1 false) rfl rfl (by decide) rfl⟩

/-- C7: a handle allocated in the capability table with kind `kind`
resolves as `kind` to its native identifier, and resolving it as any
other kind is rejected with `TypeMismatch`. -/
theorem c7_resolve_is_kind_checked (t : CapTable) (kind k' : ResourceKind)
    (native_id : Nat) (hne : k' ≠ kind) :
    (t.allocate kind native_id).1.resolve (t.allocate kind native_id).2 kind =
      .ok native_id ∧
    (t.allocate kind native_id).1.resolve (t.allocate kind native_id).2 k' =
      .error .TypeMismatch := by
  constructor
  · simp [CapTable.allocate, CapTable.resolve, mapGet]
  · simp [CapTable.allocate, CapTable.resolve, mapGet, Ne.symm hne]

theorem c7_resolve_is_kind_checked_witness :
    (ResourceKind.gpuTexture ≠ ResourceKind.gpuBuffer) ∧
    ((CapTable.empty.allocate .gpuBuffer 42).1.resolve
        (CapTable.empty.allocate .gpuBuffer 42).2 .gpuBuffer = .ok 42 ∧
     (CapTable.empty.allocate .gpuBuffer 42).1.resolve
        (CapTable.empty.allocate .gpuBuffer 42).2 .gpuTexture =
       .error .TypeMismatch) :=
  ⟨by decide, c7_resolve_is_kind_checked CapTable.empty .gpuBuffer .gpuTexture 42 (by decide)⟩

/-- C4: on a `CreateWindow` turn with a live, still-empty reply slot, the
UI thread creates the window, sets that window's tracked pointer position
to (0, 0), and writes the window into the reply slot, all in that one
turn; the requester's await is still pending before the turn and resumes
with the created window after it. -/
theorem c4_create_window_handled_in_one_turn (s : LoopState) (fid : WindowId)
    (slot : OneshotSender Window)
    (halive : slot.receiverAlive = true) (hpending : slot.value = none) :
    oneshotAwait slot = none ∧
    MyEventLoop.run_step s fid (.userEvent (.CreateWindow slot)) =
      .next { s with pointer_pos := mapSet s.pointer_pos fid (0, 0) } []
        (some { slot with value := some { id := fid } }) ∧
    mapGet (mapSet s.pointer_pos fid (0, 0)) fid = some (0, 0) ∧
    oneshotAwait { slot with value := some ({ id := fid } : Window) } =
      some { id := fid } := by
  refine ⟨hpending, ?_, mapGet_mapSet_self _ _ _, rfl⟩
  simp [MyEventLoop.run_step, OneshotSender.send, halive, mapInsert]

theorem c4_create_window_handled_in_one_turn_witness :
    ({ receiverAlive := true, value := none } : OneshotSender Window).receiverAlive = true ∧
    ({ receiverAlive := true, value := none } : OneshotSender Window).value = none ∧
    (oneshotAwait ({ receiverAlive := true, value := none } : OneshotSender Window) = none ∧
     MyEventLoop.run_step initLoopState 7
         (.userEvent (.CreateWindow { receiverAlive := true, value := none })) =
       .next { initLoopState with pointer_pos := mapSet initLoopState.pointer_pos 7 (0, 0) }
         [] (some { receiverAlive := true, value := some { id := 7 } }) ∧
     mapGet (mapSet initLoopState.pointer_pos 7 (0, 0)) 7 = some (0, 0) ∧
     oneshotAwait ({ receiverAlive := true, value := some ({ id := 7 } : Window) } :
         OneshotSender Window) = some { id := 7 }) :=
  ⟨rfl, rfl,
   c4_create_window_handled_in_one_turn initLoopState 7
     { receiverAlive := true, value := none } rfl rfl⟩

/-- C9: publishing to a channel with zero active subscribers is a no-op
for every event kind: the handler neither panics nor queues anything, no
diagnostic is printed, and the loop continues with the channels unchanged
(the cursor-move turn still updates the tracked position). -/
theorem c9_idle_publish_is_noop (s : LoopState) (w fid : WindowId)
    (pos : PhysicalPosition) (input : KeyboardInput) (st : ElementState)
    (sz : PhysicalSize) (q : F64 × F64)
    (htr : mapGet s.pointer_pos w = some q)
    (h1 : s.senders.pointer_move_event.receiverCount = 0)
    (h1c : s.senders.pointer_move_event.closed = false)
    (h2 : s.senders.pointer_up_event.receiverCount = 0)
    (h2c : s.senders.pointer_up_event.closed = false)
    (h3 : s.senders.pointer_down_event.receiverCount = 0)
    (h3c : s.senders.pointer_down_event.closed = false)
    (h4 : s.senders.key_up_event.receiverCount = 0)
    (h4c : s.senders.key_up_event.closed = false)
    (h5 : s.senders.key_down_event.receiverCount = 0)
    (h5c : s.senders.key_down_event.closed = false)
    (h6 : s.senders.canvas_resize_event.receiverCount = 0)
    (h6c : s.senders.canvas_resize_event.closed = false)
    (h7 : s.senders.frame.receiverCount = 0)
    (h7c : s.senders.frame.closed = false) :
    frame_tick_step s.senders.frame = .next s.senders.frame [] ∧
    MyEventLoop.run_step s fid (.windowEvent w (.cursorMoved pos)) =
      .next { s with pointer_pos := mapSet s.pointer_pos w (pos.x, pos.y) } [] none ∧
    MyEventLoop.run_step s fid (.windowEvent w (.keyboardInput input)) =
      .next s [] none ∧
    MyEventLoop.run_step s fid (.windowEvent w (.mouseInput st)) =
      .next s [] none ∧
    MyEventLoop.run_step s fid (.windowEvent w (.resized sz)) =
      .next s [] none := by
  obtain ⟨qx, qy⟩ := q
  refine ⟨?_, ?_, ?_, ?_, ?_⟩
  · simp [frame_tick_step, Channel.try_broadcast, h7, h7c]
  · simp [MyEventLoop.run_step, mapInsert, htr, Channel.try_broadcast, h1, h1c]
  · obtain ⟨sc, st', vk, mods⟩ := input
    cases st' <;>
      simp [MyEventLoop.run_step, Channel.try_broadcast, unwrap_unless_inactive,
        h4, h4c, h5, h5c]
  · cases st <;>
      simp [MyEventLoop.run_step, htr, Channel.try_broadcast, unwrap_unless_inactive,
        h2, h2c, h3, h3c]
  · simp [MyEventLoop.run_step, Channel.try_broadcast, unwrap_unless_inactive, h6, h6c]

/-- A state with one tracked window and the channels exactly as
`create_event_loop` leaves them (every receiver deactivated). -/
def idleTrackedState : LoopState :=
  { pointer_pos := [(0, (0, 0))], senders := create_event_loop_senders }

theorem c9_idle_publish_is_noop_witness :
    mapGet idleTrackedState.pointer_pos 0 = some (0, 0) ∧
    idleTrackedState.senders.pointer_move_event.receiverCount = 0 ∧
    idleTrackedState.senders.pointer_move_event.closed = false ∧
    idleTrackedState.senders.pointer_up_event.receiverCount = 0 ∧
    idleTrackedState.senders.pointer_up_event.closed = false ∧
    idleTrackedState.senders.pointer_down_event.receiverCount = 0 ∧
    idleTrackedState.senders.pointer_down_event.closed = false ∧
    idleTrackedState.senders.key_up_event.receiverCount = 0 ∧
    idleTrackedState.senders.key_up_event.closed = false ∧
    idleTrackedState.senders.key_down_event.receiverCount = 0 ∧
    idleTrackedState.senders.key_down_event.closed = false ∧
    idleTrackedState.senders.canvas_resize_event.receiverCount = 0 ∧
    idleTrackedState.senders.canvas_resize_event.closed = false ∧
    idleTrackedState.senders.frame.receiverCount = 0 ∧
    idleTrackedState.senders.frame.closed = false ∧
    (frame_tick_step idleTrackedState.senders.frame =
       .next idleTrackedState.senders.frame [] ∧
     MyEventLoop.run_step idleTrackedState 9 (.windowEvent 0 (.cursorMoved { x := 3, y := 4 })) =
       .next { idleTrackedState with
                 pointer_pos := mapSet idleTrackedState.pointer_pos 0 (3, 4) } [] none ∧
     MyEventLoop.run_step idleTrackedState 9 (.windowEvent 0 (.keyboardInput altOnlyInput)) =
       .next idleTrackedState [] none ∧
     MyEventLoop.run_step idleTrackedState 9 (.windowEvent 0 (.mouseInput .Pressed)) =
       .next idleTrackedState [] none ∧
     MyEventLoop.run_step idleTrackedState 9 (.windowEvent 0 (.resized { width := 800, height := 600 })) =
       .next idleTrackedState [] none) :=
  ⟨rfl, rfl, rfl, rfl, rfl, rfl, rfl, rfl, rfl, rfl, rfl, rfl, rfl, rfl, rfl,
   c9_idle_publish_is_noop idleTrackedState 0 9 { x := 3, y := 4 } altOnlyInput
     .Pressed { width := 800, height := 600 } (0, 0)
     rfl rfl rfl rfl rfl rfl rfl rfl rfl rfl rfl rfl rfl rfl rfl⟩

def dummyKeyMsg : WindowId × KeyEvent :=
  (0, { code := "", key := "", alt_key := false, ctrl_key := false
        meta_key := false, shift_key := false })

def dummyPtrMsg : WindowId × PointerEvent := (0, { x := 0, y := 0 })

def dummyResizeMsg : WindowId × ResizeEvent := (0, { height := 0, width := 0 })

/-- A state in which every broadcast channel has one active subscriber
that has read nothing, every buffer is at capacity, and window 0 is
tracked. -/
def allFullState : LoopState :=
  { pointer_pos := [(0, (0, 0))]
    senders :=
      { pointer_up_event := Channel.mk 10 (List.replicate 10 dummyPtrMsg) 1 false
        pointer_down_event := Channel.mk 10 (List.replicate 10 dummyPtrMsg) 1 false
        pointer_move_event := Channel.mk 10 (List.replicate 10 dummyPtrMsg) 1 false
        key_up_event := Channel.mk 10 (List.replicate 10 dummyKeyMsg) 1 false
        key_down_event := Channel.mk 10 (List.replicate 10 dummyKeyMsg) 1 false
        canvas_resize_event := Channel.mk 10 (List.replicate 10 dummyResizeMsg) 1 false
        frame := Channel.mk 1 [()] 1 false } }

/-- C1 counterexample: with the key-down channel full and one active
unread subscriber, publishing the next key-down message makes the
producer panic (the Full error is unwrapped) instead of skipping it —
the claimed overflow tolerance does not hold for every event kind. -/
theorem c1_counterexample_key_down_full_panics :
    MyEventLoop.run_step allFullState 0
        (.windowEvent 0 (.keyboardInput
          { scancode := 0, state := .Pressed, virtual_keycode := none
            modifiers := { shift := false, ctrl := false, alt := false, logo := false } })) =
      .panicked "called Result::unwrap on an Err value" :=
  rfl

/-- C1 amended: on a full channel with an active unread subscriber, only
the frame-tick and pointer-move publishes report Full, drop the newest
message with a diagnostic and let the producer continue; a full publish
on the pointer up/down, key up/down or resize channels panics the
producer (the handler unwraps the Full error). -/
theorem c1_amended_overflow_per_channel (s : LoopState) (w fid : WindowId)
    (pos : PhysicalPosition) (input : KeyboardInput) (st : ElementState)
    (sz : PhysicalSize) (q : F64 × F64)
    (htr : mapGet s.pointer_pos w = some q)
    (hfa : s.senders.frame.receiverCount ≠ 0)
    (hfc : s.senders.frame.closed = false)
    (hff : s.senders.frame.queue.length = s.senders.frame.capacity)
    (hma : s.senders.pointer_move_event.receiverCount ≠ 0)
    (hmc : s.senders.pointer_move_event.closed = false)
    (hmf : s.senders.pointer_move_event.queue.length = s.senders.pointer_move_event.capacity)
    (hka : s.senders.key_down_event.receiverCount ≠ 0)
    (hkc : s.senders.key_down_event.closed = false)
    (hkf : s.senders.key_down_event.queue.length = s.senders.key_down_event.capacity)
    (hkua : s.senders.key_up_event.receiverCount ≠ 0)
    (hkuc : s.senders.key_up_event.closed = false)
    (hkuf : s.senders.key_up_event.queue.length = s.senders.key_up_event.capacity)
    (hda : s.senders.pointer_down_event.receiverCount ≠ 0)
    (hdc : s.senders.pointer_down_event.closed = false)
    (hdf : s.senders.pointer_down_event.queue.length = s.senders.pointer_down_event.capacity)
    (hpa : s.senders.pointer_up_event.receiverCount ≠ 0)
    (hpc : s.senders.pointer_up_event.closed = false)
    (hpf : s.senders.pointer_up_event.queue.length = s.senders.pointer_up_event.capacity)
    (hra : s.senders.canvas_resize_event.receiverCount ≠ 0)
    (hrc : s.senders.canvas_resize_event.closed = false)
    (hrf : s.senders.canvas_resize_event.queue.length = s.senders.canvas_resize_event.capacity) :
    frame_tick_step s.senders.frame = .next s.senders.frame ["skipping a frame"] ∧
    MyEventLoop.run_step s fid (.windowEvent w (.cursorMoved pos)) =
      .next { s with pointer_pos := mapSet s.pointer_pos w (pos.x, pos.y) }
        ["skipping a pointer move event"] none ∧
    MyEventLoop.run_step s fid (.windowEvent w (.keyboardInput input)) =
      .panicked "called Result::unwrap on an Err value" ∧
    MyEventLoop.run_step s fid (.windowEvent w (.mouseInput st)) =
      .panicked "called Result::unwrap on an Err value" ∧
    MyEventLoop.run_step s fid (.windowEvent w (.resized sz)) =
      .panicked "called Result::unwrap on an Err value" := by
  obtain ⟨qx, qy⟩ := q
  refine ⟨?_, ?_, ?_, ?_, ?_⟩
  · simp [frame_tick_step, Channel.try_broadcast, hfa, hfc, hff]
  · simp [MyEventLoop.run_step, mapInsert, htr, Channel.try_broadcast, hma, hmc, hmf]
  · obtain ⟨sc, st', vk, mods⟩ := input
    cases st' <;>
      simp [MyEventLoop.run_step, Channel.try_broadcast, unwrap_unless_inactive,
        hka, hkc, hkf, hkua, hkuc, hkuf]
  · cases st <;>
      simp [MyEventLoop.run_step, htr, Channel.try_broadcast, unwrap_unless_inactive,
        hda, hdc, hdf, hpa, hpc, hpf]
  · simp [MyEventLoop.run_step, Channel.try_broadcast, unwrap_unless_inactive,
      hra, hrc, hrf]

theorem c1_amended_overflow_per_channel_witness :
    mapGet allFullState.pointer_pos 0 = some (0, 0) ∧
    allFullState.senders.frame.receiverCount ≠ 0 ∧
    allFullState.senders.frame.queue.length = allFullState.senders.frame.capacity ∧
    allFullState.senders.pointer_move_event.queue.length =
      allFullState.senders.pointer_move_event.capacity ∧
    allFullState.senders.key_down_event.queue.length =
      allFullState.senders.key_down_event.capacity ∧
    (frame_tick_step allFullState.senders.frame =
       .next allFullState.senders.frame ["skipping a frame"] ∧
     MyEventLoop.run_step allFullState 9 (.windowEvent 0 (.cursorMoved { x := 5, y := 6 })) =
       .next { allFullState with
                 pointer_pos := mapSet allFullState.pointer_pos 0 (5, 6) }
         ["skipping a pointer move event"] none ∧
     MyEventLoop.run_step allFullState 9 (.windowEvent 0 (.keyboardInput altOnlyInput)) =
       .panicked "called Result::unwrap on an Err value" ∧
     MyEventLoop.run_step allFullState 9 (.windowEvent 0 (.mouseInput .Released)) =
       .panicked "called Result::unwrap on an Err value" ∧
     MyEventLoop.run_step allFullState 9 (.windowEvent 0 (.resized { width := 1, height := 2 })) =
       .panicked "called Result::unwrap on an Err value") :=
  ⟨rfl, by decide, rfl, rfl, rfl,
   c1_amended_overflow_per_channel allFullState 0 9 { x := 5, y := 6 } altOnlyInput
     .Released { width := 1, height := 2 } (0, 0)
     rfl (by decide) rfl rfl (by decide) rfl rfl (by decide) rfl rfl
     (by decide) rfl rfl (by decide) rfl rfl (by decide) rfl rfl
     (by decide) rfl rfl⟩

/-- Inversion for a successful cursor-move turn: whatever the channel
outcome, the surviving state's tracked position for the event's window is
the event's position. -/
theorem run_step_cursorMoved_pointer_pos (s s' : LoopState) (w fid : WindowId)
    (pos : PhysicalPosition) (log : List String) (r : Option (OneshotSender Window))
    (hmove : MyEventLoop.run_step s fid (.windowEvent w (.cursorMoved pos)) =
      .next s' log r) :
    s'.pointer_pos = mapSet s.pointer_pos w (pos.x, pos.y) := by
  unfold MyEventLoop.run_step at hmove
  simp only [mapInsert] at hmove
  split at hmove
  · cases hmove
  · split at hmove
    · cases hmove; rfl
    · cases hmove; rfl
    · cases hmove; rfl
    · cases hmove

/-- C3: after a cursor-move to `pos` for window `w`, a mouse-button press
(or release) for `w` — which carries no position — is published on the
pointer-down (resp. pointer-up) channel carrying exactly `pos`, provided
that channel can accept the message. -/
theorem c3_button_event_carries_last_cursor_position (s s' : LoopState)
    (w fid fid' : WindowId) (pos : PhysicalPosition)
    (log : List String) (r : Option (OneshotSender Window))
    (hmove : MyEventLoop.run_step s fid (.windowEvent w (.cursorMoved pos)) =
      .next s' log r)
    (hda : s'.senders.pointer_down_event.receiverCount ≠ 0)
    (hdc : s'.senders.pointer_down_event.closed = false)
    (hdf : s'.senders.pointer_down_event.queue.length ≠
      s'.senders.pointer_down_event.capacity)
    (hua : s'.senders.pointer_up_event.receiverCount ≠ 0)
    (huc : s'.senders.pointer_up_event.closed = false)
    (huf : s'.senders.pointer_up_event.queue.length ≠
      s'.senders.pointer_up_event.capacity) :
    (∃ s'', MyEventLoop.run_step s' fid' (.windowEvent w (.mouseInput .Pressed)) =
        .next s'' [] none ∧
      s''.senders.pointer_down_event.queue =
        s'.senders.pointer_down_event.queue ++ [(w, { x := pos.x, y := pos.y })]) ∧
    (∃ s'', MyEventLoop.run_step s' fid' (.windowEvent w (.mouseInput .Released)) =
        .next s'' [] none ∧
      s''.senders.pointer_up_event.queue =
        s'.senders.pointer_up_event.queue ++ [(w, { x := pos.x, y := pos.y })]) := by
  have hpos : mapGet s'.pointer_pos w = some (pos.x, pos.y) := by
    rw [run_step_cursorMoved_pointer_pos s s' w fid pos log r hmove]
    exact mapGet_mapSet_self _ _ _
  constructor
  · refine ⟨{ s' with senders := { s'.senders with pointer_down_event :=
        { s'.senders.pointer_down_event with queue :=
            s'.senders.pointer_down_event.queue ++ [(w, { x := pos.x, y := pos.y })] } } },
      ?_, rfl⟩
    simp [MyEventLoop.run_step, hpos, Channel.try_broadcast, hda, hdc, hdf,
      unwrap_unless_inactive]
  · refine ⟨{ s' with senders := { s'.senders with pointer_up_event :=
        { s'.senders.pointer_up_event with queue :=
            s'.senders.pointer_up_event.queue ++ [(w, { x := pos.x, y := pos.y })] } } },
      ?_, rfl⟩
    simp [MyEventLoop.run_step, hpos, Channel.try_broadcast, hua, huc, huf,
      unwrap_unless_inactive]

/-- A state with window 0 tracked at (0, 0) and active, empty pointer
channels. -/
def activeTrackedState : LoopState :=
  { pointer_pos := [(0, (0, 0))]
    senders := { create_event_loop_senders with
      pointer_move_event := Channel.mk 10 [] 1 false
      pointer_down_event := Channel.mk 10 [] 1 false
      pointer_up_event := Channel.mk 10 [] 1 false } }

/-- `activeTrackedState` after a cursor move to (12, 7) on window 0. -/
def movedState : LoopState :=
  { pointer_pos := [(0, (12, 7))]
    senders := { create_event_loop_senders with
      pointer_move_event := Channel.mk 10 [(0, { x := 12, y := 7 })] 1 false
      pointer_down_event := Channel.mk 10 [] 1 false
      pointer_up_event := Channel.mk 10 [] 1 false } }

theorem c3_button_event_carries_last_cursor_position_witness :
    MyEventLoop.run_step activeTrackedState 0
        (.windowEvent 0 (.cursorMoved { x := 12, y := 7 })) =
      .next movedState [] none ∧
    ((∃ s'', MyEventLoop.run_step movedState 1 (.windowEvent 0 (.mouseInput .Pressed)) =
        .next s'' [] none ∧
      s''.senders.pointer_down_event.queue =
        movedState.senders.pointer_down_event.queue ++ [(0, { x := 12, y := 7 })]) ∧
     (∃ s'', MyEventLoop.run_step movedState 1 (.windowEvent 0 (.mouseInput .Released)) =
        .next s'' [] none ∧
      s''.senders.pointer_up_event.queue =
        movedState.senders.pointer_up_event.queue ++ [(0, { x := 12, y := 7 })])) :=
  ⟨rfl,
   c3_button_event_carries_last_cursor_position activeTrackedState movedState 0 0 1
     { x := 12, y := 7 } [] none rfl
     (by decide) rfl (by decide) (by decide) rfl (by decide)⟩

end WasiGfx
